import Mathlib

/-!
Shallow embedding of the message-processing pipeline of the print-client
repository (src/main.py), together with theorems settling the specification
claims about it.

External collaborators are modelled as inputs and recorded effects:
- the outcome of the library call base64.b64decode is carried by the message
  (the pipeline only branches on success vs. binascii.Error);
- the external print action (subprocess.run of the ghostscript command) is an
  oracle Boolean saying whether it would succeed; the embedding counts how
  often it is invoked;
- message.ack() / message.nack() and time.sleep are recorded as counters;
- the firestore ledger is passed in as a value (the source's ledger code at
  src/main.py lines 208-223 and 257-272 is commented out, so the pipeline body
  never reads or writes it).
-/

/-- Python exception values that can arise in the pipeline.  The `other`
constructor stands for an arbitrary further exception class, so that a
quantification over `PyError` covers exceptions of any type. -/
inductive PyError where
  | valueError (msg : String)
  | nameError (name : String)
  | binasciiError
  | calledProcessError
  | other (name : String)
  deriving Repr, DecidableEq

/-- Outcome of base64.b64decode applied to the raw payload: either the decoded
bytes, or a raised binascii.Error for a payload that is not validly
base64-encoded. -/
inductive Base64Data where
  | valid (bytes : List Nat)
  | invalid
  deriving Repr, DecidableEq

/-- An inbound pub/sub message as seen by the callback: its attribute mapping
(association list of string keys to string values) and its payload, the latter
represented by the outcome of base64-decoding it. -/
structure Message where
  attributes : List (String × String)
  data : Base64Data
  deriving Repr, DecidableEq

/-- The number command-line option; argparse restricts it to the three
choices `odd`, `even`, `all` (src/main.py lines 69-70). -/
inductive FilterMode where
  | all
  | even
  | odd
  deriving Repr, DecidableEq

/-- The configuration surface read by the callback through the module-global
`ARGS`: the printer name and the order-number filter mode. -/
structure Config where
  printer : String
  number : FilterMode
  deriving Repr, DecidableEq

/-- A record in the persistent ledger saying that an order was printed for an
event.  The source's code handling these records is commented out
(src/main.py lines 208-223, 257-272), so the pipeline ignores the ledger; the
type exists so that claims about ledger state can be stated. -/
structure LedgerRecord where
  event_id : String
  order_number : Int
  deriving Repr, DecidableEq

/-- The observable effects of one invocation of the callback
`received_message_to_print`:
- `acks` / `nacks`: number of message.ack() / message.nack() calls;
- `printCalls`: number of invocations of the external print action
  (subprocess.run of the ghostscript command, src/main.py line 248);
- `ledgerWrites`: number of documents added to the firestore ledger;
- `sleepSeconds`: total seconds slept (time.sleep(3) on the print-failure
  path, src/main.py line 254);
- `tempCreated` / `tempRemoved`: how many transient artifacts (named temp
  files) were materialized and removed;
- `escaped`: an exception propagating out of the callback to the transport
  framework, when one does. -/
structure PipelineResult where
  acks : Nat
  nacks : Nat
  printCalls : Nat
  ledgerWrites : Nat
  sleepSeconds : Nat
  tempCreated : Nat
  tempRemoved : Nat
  escaped : Option PyError
  deriving Repr, DecidableEq

/-- An invocation with no observable effects; branches of the pipeline update
the fields they touch. -/
def noEffects : PipelineResult :=
  { acks := 0, nacks := 0, printCalls := 0, ledgerWrites := 0, sleepSeconds := 0,
    tempCreated := 0, tempRemoved := 0, escaped := none }

/-- `validate_message_attributes` (src/main.py lines 148-175).  The only
uncommented check raises ValueError when the message has no attributes
(line 154-158); the event-date check (lines 160-164) and the order-number
presence/parseability checks (lines 166-175) are commented out in the source
and therefore absent.  Returns `some e` when the exception `e` is raised,
`none` when validation passes. -/
def validate_message_attributes (message : Message) : Option PyError :=
  if message.attributes.isEmpty then
    some (PyError.valueError "Received message with no message attributes; discarding")
  else
    none

/-- The callback `received_message_to_print` (src/main.py lines 184-273),
parameterized by the validator it calls (Python resolves the module-global
name `validate_message_attributes` at call time, so tests can monkeypatch it;
the wrapper below instantiates it with the real one).

Control flow, line by line:
- lines 191-195: `try: validate_message_attributes(message)` with a broad
  `except Exception: return message.ack()` — any raised exception leads to a
  single ack and an immediate return;
- lines 197-198, which would bind `event_date` and `order_number`, are
  commented out, so the name `order_number` is unbound in the function body;
- lines 201-206: when `ARGS.number != 'all'`, the condition on line 202
  evaluates `order_number % 2`; the name is unbound, so Python raises
  NameError, which no handler catches — it escapes the callback before any
  temp file exists and before any ack/nack;
- line 226: `with WinNamedTempFile() as temp_file:` materializes the
  transient artifact; `WinNamedTempFile.__exit__` (lines 142-145) closes and
  unlinks it on every way out of the with-block, normal or exceptional;
- lines 228-233: writing `base64.b64decode(message.data)` raises
  binascii.Error for an invalid payload, which is caught: message.ack() and
  return (the artifact is removed by `__exit__`);
- line 236: `temp_file.close()` flushes the file;
- lines 238-240: the f-string argument of logging.info references
  `order_number`; the name is unbound, so NameError is raised; the
  surrounding handler (line 249) only catches subprocess.CalledProcessError,
  so the exception propagates out of the with-block (removing the artifact)
  and out of the callback.  The print invocation (line 248), the
  nack/sleep failure path (lines 252-254) and the final ack (line 273) are
  therefore unreachable, whatever the print oracle says. -/
def received_message_to_print_with (validator : Message → Option PyError) (cfg : Config)
    (ledger : List LedgerRecord) (printOk : Bool) (message : Message) : PipelineResult :=
  match validator message with
  | some _ => { noEffects with acks := 1 }
  | none =>
    if cfg.number ≠ FilterMode.all then
      { noEffects with escaped := some (PyError.nameError "order_number") }
    else
      match message.data with
      | Base64Data.invalid =>
        { noEffects with acks := 1, tempCreated := 1, tempRemoved := 1 }
      | Base64Data.valid _ =>
        { noEffects with tempCreated := 1, tempRemoved := 1,
                         escaped := some (PyError.nameError "order_number") }

/-- The callback with the module's own validator, as installed by
`subscriber.subscribe(..., callback=received_message_to_print, ...)`
(src/main.py line 115). -/
def received_message_to_print (cfg : Config) (ledger : List LedgerRecord) (printOk : Bool)
    (message : Message) : PipelineResult :=
  received_message_to_print_with validate_message_attributes cfg ledger printOk message

/-- The filter condition of src/main.py lines 201-206, read as a predicate on
the order number and the configured mode: the message is accepted (the
`message.nack()` skip branch is not taken) iff the mode is `all`, or the
skip condition on lines 202-203 is false.  Python's `%` with the positive
modulus 2 agrees with Lean's Euclidean `%` on `Int`. -/
def accepts (order_number : Int) (mode : FilterMode) : Bool :=
  if mode = FilterMode.all then
    true
  else
    !((order_number % 2 == 0 && mode != FilterMode.even) ||
      (order_number % 2 == 1 && mode != FilterMode.odd))

/-- State of the named temporary file managed by `WinNamedTempFile`
(src/main.py lines 128-145). -/
structure TempFileState where
  onDisk : Bool
  closed : Bool
  deriving Repr, DecidableEq

/-- `WinNamedTempFile.__enter__` (src/main.py lines 138-140): creates a
NamedTemporaryFile with delete=False, open and on disk. -/
def winNamedTempFile_enter : TempFileState :=
  { onDisk := true, closed := false }

/-- `WinNamedTempFile.__exit__` (src/main.py lines 142-145): closes the file
when it is still open, then unconditionally unlinks it, whatever state the
with-block left it in and on every exit path, normal or exceptional. -/
def winNamedTempFile_exit (f : TempFileState) : TempFileState :=
  { onDisk := false, closed := true }

/-- Modelled from the spec (section 4.1 AttributeValidator): whether a string
parses as an integer, an optional leading minus sign followed by one or more
decimal digits. -/
def parsesAsInt (s : String) : Bool :=
  match s.data with
  | [] => false
  | c :: rest =>
      if c = '-' then !rest.isEmpty && rest.all (fun d => d.isDigit)
      else (c :: rest).all (fun d => d.isDigit)

/-- Modelled from the spec (section 4.1 AttributeValidator): an attribute set
is valid when the event identifier is present and the order-number attribute
is present and parseable as an integer.  Used only to state which messages
the claims call well-formed; the source's corresponding checks are commented
out. -/
def specValidAttributes (attrs : List (String × String)) : Bool :=
  (attrs.lookup "event_id").isSome &&
  (match attrs.lookup "order_number" with
   | some s => parsesAsInt s
   | none => false)

/-- C3: the filter predicate is a pure total function of the order number and
the mode: mode `all` accepts every integer N, mode `even` accepts N iff
N % 2 == 0, and mode `odd` accepts N iff N % 2 == 1. -/
theorem c3_filter_predicate_correct (n : Int) :
    accepts n FilterMode.all = true ∧
    accepts n FilterMode.even = (n % 2 == 0) ∧
    accepts n FilterMode.odd = (n % 2 == 1) := by
  rcases Int.emod_two_eq_zero_or_one n with h | h <;>
    refine ⟨rfl, ?_, ?_⟩ <;> simp [accepts, h]

/-- C8: every invocation of the callback removes exactly as many transient
artifacts as it materializes — on the decode-failure exit, and on the
exceptional exits through the with-block — and `WinNamedTempFile.__exit__`
always leaves the file off the disk. -/
theorem c8_transient_artifact_released (cfg : Config) (ledger : List LedgerRecord)
    (printOk : Bool) (message : Message) (f : TempFileState) :
    (received_message_to_print cfg ledger printOk message).tempRemoved =
      (received_message_to_print cfg ledger printOk message).tempCreated ∧
    (winNamedTempFile_exit f).onDisk = false := by
  refine ⟨?_, rfl⟩
  rcases message with ⟨attrs, data⟩
  rcases cfg with ⟨printer, number⟩
  cases attrs <;> cases data <;> cases number <;> rfl

/-- C10: when the validator raises any exception of any type, the callback
acknowledges the message exactly once and returns immediately — no filtering,
no decoding, no artifact, no print invocation, no nack, and no exception
reaches the transport. -/
theorem c10_any_validation_exception_acked (validator : Message → Option PyError)
    (cfg : Config) (ledger : List LedgerRecord) (printOk : Bool) (message : Message)
    (e : PyError) (h : validator message = some e) :
    received_message_to_print_with validator cfg ledger printOk message =
      { noEffects with acks := 1 } := by
  unfold received_message_to_print_with
  rw [h]

/-- Witness for C10 at a concrete input: a validator raising a RuntimeError,
an exception class the documented validation errors do not mention. -/
theorem c10_any_validation_exception_acked_witness :
    (fun _ : Message => some (PyError.other "RuntimeError"))
        { attributes := [("event_id", "E1")], data := Base64Data.invalid } =
      some (PyError.other "RuntimeError") ∧
    received_message_to_print_with (fun _ => some (PyError.other "RuntimeError"))
        { printer := "default_printer", number := FilterMode.all } [] true
        { attributes := [("event_id", "E1")], data := Base64Data.invalid } =
      { noEffects with acks := 1 } :=
  ⟨rfl, c10_any_validation_exception_acked _ _ _ _ _ _ rfl⟩

/-- C5 counterexample: a message with valid attributes and an invalid base64
payload is not acknowledged when the configured filter mode is `odd` — the
callback raises NameError at the filter condition (src/main.py line 202,
`order_number` unbound) before reaching the decode step, and the exception
escapes, so the claim as stated fails at this concrete input. -/
theorem c5_counterexample :
    (received_message_to_print { printer := "default_printer", number := FilterMode.odd } [] true
        { attributes := [("event_id", "E1"), ("order_number", "5")],
          data := Base64Data.invalid }).acks = 0 ∧
    (received_message_to_print { printer := "default_printer", number := FilterMode.odd } [] true
        { attributes := [("event_id", "E1"), ("order_number", "5")],
          data := Base64Data.invalid }).escaped =
      some (PyError.nameError "order_number") := by
  exact ⟨rfl, rfl⟩

/-- C5 (amended): with the filter mode at its default `all`, every message
with valid attributes whose payload is not validly base64-encoded is
acknowledged exactly once, the print action is never invoked, nothing is
nacked, and no exception escapes — the failure class is never retried. -/
theorem c5_bad_payload_acked (cfg : Config) (ledger : List LedgerRecord) (printOk : Bool)
    (message : Message) (hmode : cfg.number = FilterMode.all)
    (hvalid : specValidAttributes message.attributes = true)
    (hdata : message.data = Base64Data.invalid) :
    received_message_to_print cfg ledger printOk message =
      { noEffects with acks := 1, tempCreated := 1, tempRemoved := 1 } := by
  rcases message with ⟨attrs, data⟩
  subst hdata
  cases attrs with
  | nil => exact absurd hvalid (by decide)
  | cons a as =>
    simp [received_message_to_print, received_message_to_print_with,
      validate_message_attributes, hmode]

/-- Witness for C5 (amended) at a concrete input: default mode `all`, valid
attributes for order 5 of event E1, undecodable payload. -/
theorem c5_bad_payload_acked_witness :
    ({ printer := "default_printer", number := FilterMode.all } : Config).number =
      FilterMode.all ∧
    specValidAttributes [("event_id", "E1"), ("order_number", "5")] = true ∧
    (Message.mk [("event_id", "E1"), ("order_number", "5")] Base64Data.invalid).data =
      Base64Data.invalid ∧
    received_message_to_print { printer := "default_printer", number := FilterMode.all } [] true
        (Message.mk [("event_id", "E1"), ("order_number", "5")] Base64Data.invalid) =
      { noEffects with acks := 1, tempCreated := 1, tempRemoved := 1 } :=
  ⟨rfl, by decide, rfl, c5_bad_payload_acked _ _ _ _ rfl (by decide) rfl⟩

/-- C1: evaluation at the claim's situation.  With the ledger already holding
a printed record for order 5 of event E1, no reprint flag, mode `all`, and a
valid payload, each of the two deliveries of the same logical message raises
NameError (the source never binds `order_number`, and the commented-out
ledger check never runs): the print action is invoked zero times across both
deliveries and neither delivery is acknowledged, contradicting the claim that
both are acknowledged. -/
theorem c1_duplicate_delivery_crashes :
    (received_message_to_print { printer := "default_printer", number := FilterMode.all }
          [{ event_id := "E1", order_number := 5 }] true
          { attributes := [("event_id", "E1"), ("order_number", "5")],
            data := Base64Data.valid [37, 80, 68, 70] }).printCalls +
      (received_message_to_print { printer := "default_printer", number := FilterMode.all }
          [{ event_id := "E1", order_number := 5 }] true
          { attributes := [("event_id", "E1"), ("order_number", "5")],
            data := Base64Data.valid [37, 80, 68, 70] }).printCalls = 0 ∧
    (received_message_to_print { printer := "default_printer", number := FilterMode.all }
          [{ event_id := "E1", order_number := 5 }] true
          { attributes := [("event_id", "E1"), ("order_number", "5")],
            data := Base64Data.valid [37, 80, 68, 70] }).acks = 0 ∧
    (received_message_to_print { printer := "default_printer", number := FilterMode.all }
          [{ event_id := "E1", order_number := 5 }] true
          { attributes := [("event_id", "E1"), ("order_number", "5")],
            data := Base64Data.valid [37, 80, 68, 70] }).escaped =
      some (PyError.nameError "order_number") :=
  ⟨rfl, rfl, rfl⟩

/-- C2: evaluation at a malformed attribute set with the event id missing.
Validation passes, because the event-id check is commented out of the source,
and the callback then raises NameError at the pre-print log line: the message
is never acknowledged, contradicting the claim (and the repository's own
test_missing_event_id).  The print action is indeed never invoked. -/
theorem c2_missing_event_id_not_acked :
    (received_message_to_print { printer := "default_printer", number := FilterMode.all } [] true
          { attributes := [("order_number", "1234")],
            data := Base64Data.valid [49, 50, 51, 52] }).acks = 0 ∧
    (received_message_to_print { printer := "default_printer", number := FilterMode.all } [] true
          { attributes := [("order_number", "1234")],
            data := Base64Data.valid [49, 50, 51, 52] }).printCalls = 0 ∧
    (received_message_to_print { printer := "default_printer", number := FilterMode.all } [] true
          { attributes := [("order_number", "1234")],
            data := Base64Data.valid [49, 50, 51, 52] }).escaped =
      some (PyError.nameError "order_number") :=
  ⟨rfl, rfl, rfl⟩

/-- C4: evaluation at a valid message whose external print action would fail.
The callback raises NameError at the pre-print log line (src/main.py line
239) before ever invoking subprocess.run: the print action is attempted zero
times, the message is never nacked, and no backoff delay occurs,
contradicting the claim (and the repository's own test_printer_failure). -/
theorem c4_print_failure_path_unreachable :
    (received_message_to_print { printer := "default_printer", number := FilterMode.all } [] false
          { attributes := [("event_id", "E1"), ("order_number", "7")],
            data := Base64Data.valid [55] }).printCalls = 0 ∧
    (received_message_to_print { printer := "default_printer", number := FilterMode.all } [] false
          { attributes := [("event_id", "E1"), ("order_number", "7")],
            data := Base64Data.valid [55] }).nacks = 0 ∧
    (received_message_to_print { printer := "default_printer", number := FilterMode.all } [] false
          { attributes := [("event_id", "E1"), ("order_number", "7")],
            data := Base64Data.valid [55] }).sleepSeconds = 0 ∧
    (received_message_to_print { printer := "default_printer", number := FilterMode.all } [] false
          { attributes := [("event_id", "E1"), ("order_number", "7")],
            data := Base64Data.valid [55] }).escaped =
      some (PyError.nameError "order_number") :=
  ⟨rfl, rfl, rfl, rfl⟩

/-- C6: evaluation at the clean-print scenario — attributes event_id E1 and
order_number 5, mode `all`, empty ledger, a print action that would succeed.
The callback raises NameError at the pre-print log line: the print action is
invoked zero times, the ledger gains no record, and the message is never
acknowledged, contradicting every part of the claimed outcome (and the
repository's own test_successful_print). -/
theorem c6_clean_print_scenario_crashes :
    (received_message_to_print { printer := "default_printer", number := FilterMode.all } [] true
          { attributes := [("event_id", "E1"), ("order_number", "5")],
            data := Base64Data.valid [108, 97, 98, 101, 108] }).printCalls = 0 ∧
    (received_message_to_print { printer := "default_printer", number := FilterMode.all } [] true
          { attributes := [("event_id", "E1"), ("order_number", "5")],
            data := Base64Data.valid [108, 97, 98, 101, 108] }).ledgerWrites = 0 ∧
    (received_message_to_print { printer := "default_printer", number := FilterMode.all } [] true
          { attributes := [("event_id", "E1"), ("order_number", "5")],
            data := Base64Data.valid [108, 97, 98, 101, 108] }).acks = 0 ∧
    (received_message_to_print { printer := "default_printer", number := FilterMode.all } [] true
          { attributes := [("event_id", "E1"), ("order_number", "5")],
            data := Base64Data.valid [108, 97, 98, 101, 108] }).escaped =
      some (PyError.nameError "order_number") :=
  ⟨rfl, rfl, rfl, rfl⟩

/-- C7: evaluation at the filtered-out scenario — attributes event_id E1 and
order_number 4 with mode `odd`, which the filter condition excludes.  The
callback raises NameError while evaluating that very condition (src/main.py
line 202, `order_number` unbound): the message is never nacked, contradicting
the claim (and the repository's own test_no_even_messages_printed); the print
action is indeed never invoked. -/
theorem c7_filtered_message_not_nacked :
    accepts 4 FilterMode.odd = false ∧
    (received_message_to_print { printer := "default_printer", number := FilterMode.odd } [] true
          { attributes := [("event_id", "E1"), ("order_number", "4")],
            data := Base64Data.valid [52] }).nacks = 0 ∧
    (received_message_to_print { printer := "default_printer", number := FilterMode.odd } [] true
          { attributes := [("event_id", "E1"), ("order_number", "4")],
            data := Base64Data.valid [52] }).printCalls = 0 ∧
    (received_message_to_print { printer := "default_printer", number := FilterMode.odd } [] true
          { attributes := [("event_id", "E1"), ("order_number", "4")],
            data := Base64Data.valid [52] }).escaped =
      some (PyError.nameError "order_number") :=
  ⟨rfl, rfl, rfl, rfl⟩

/-- C9: evaluation at a well-formed message on the default configuration.
The invocation calls neither ack nor nack and lets NameError propagate to
the transport framework: the callback exposes zero bits of ack/nack outcome
and an exception besides, contradicting the claim of exactly one of ack or
nack and no escaping exception. -/
theorem c9_exception_escapes_to_transport :
    (received_message_to_print { printer := "default_printer", number := FilterMode.all } [] true
          { attributes := [("event_id", "E2"), ("order_number", "11")],
            data := Base64Data.valid [1, 2, 3] }).acks = 0 ∧
    (received_message_to_print { printer := "default_printer", number := FilterMode.all } [] true
          { attributes := [("event_id", "E2"), ("order_number", "11")],
            data := Base64Data.valid [1, 2, 3] }).nacks = 0 ∧
    (received_message_to_print { printer := "default_printer", number := FilterMode.all } [] true
          { attributes := [("event_id", "E2"), ("order_number", "11")],
            data := Base64Data.valid [1, 2, 3] }).escaped =
      some (PyError.nameError "order_number") :=
  ⟨rfl, rfl, rfl⟩
